import Mathlib

/-!
Shallow embedding of the Edugen image-crop pipeline (the "core" of the spec):

* the drag-gesture handlers `handleMouseDown` / `handleMouseMove` / `handleMouseUp`
  of `src/components/MathsSolver.tsx` (identical logic in `src/unnamed/part_000`),
* the crop-and-rasterize function `performCropAndSolve`,
* the solve-request construction of `solveMathProblem`
  (`src/services/geminiService.ts`) and its call site `handleSolveInternal`,
* the confirm-button disabled conditions of the two component variants.

JavaScript numbers are modelled symbolically by `JSNum`: NaN, the two
infinities, or a finite rational.  The arithmetic operations used by the
source (`-`, `*`, `/`, `Math.min`, `Math.max`, `Math.abs`, `<`) follow the
IEEE-754 / ECMAScript semantics on these values (signed zero never matters
for the operations and inputs that occur here, so `0` stands for `+0`).
-/

namespace Edugen

/-- A JavaScript number: NaN, +Infinity, -Infinity, or a finite value
(modelled as a rational; every concrete value in the source is exact). -/
inductive JSNum where
  | nan    : JSNum
  | posInf : JSNum
  | negInf : JSNum
  | fin    : ℚ → JSNum
deriving DecidableEq

/-- `true` exactly for finite values (JS `Number.isFinite`). -/
def JSNum.isFinite : JSNum → Bool
  | .fin _ => true
  | _ => false

/-- JS subtraction `a - b` (NaN propagates; `∞ - ∞ = NaN`). -/
def jsSub : JSNum → JSNum → JSNum
  | .nan, _ => .nan
  | _, .nan => .nan
  | .posInf, .posInf => .nan
  | .posInf, _ => .posInf
  | .negInf, .negInf => .nan
  | .negInf, _ => .negInf
  | .fin _, .posInf => .negInf
  | .fin _, .negInf => .posInf
  | .fin a, .fin b => .fin (a - b)

/-- JS `Math.min` (returns NaN if either argument is NaN). -/
def jsMin : JSNum → JSNum → JSNum
  | .nan, _ => .nan
  | _, .nan => .nan
  | .negInf, _ => .negInf
  | _, .negInf => .negInf
  | .posInf, b => b
  | a, .posInf => a
  | .fin a, .fin b => .fin (min a b)

/-- JS `Math.max` (returns NaN if either argument is NaN). -/
def jsMax : JSNum → JSNum → JSNum
  | .nan, _ => .nan
  | _, .nan => .nan
  | .posInf, _ => .posInf
  | _, .posInf => .posInf
  | .negInf, b => b
  | a, .negInf => a
  | .fin a, .fin b => .fin (max a b)

/-- JS `Math.abs`. -/
def jsAbs : JSNum → JSNum
  | .nan => .nan
  | .posInf => .posInf
  | .negInf => .posInf
  | .fin a => .fin |a|

/-- JS multiplication (`∞ * 0 = NaN`, otherwise signs combine). -/
def jsMul : JSNum → JSNum → JSNum
  | .nan, _ => .nan
  | _, .nan => .nan
  | .posInf, .posInf => .posInf
  | .posInf, .negInf => .negInf
  | .negInf, .posInf => .negInf
  | .negInf, .negInf => .posInf
  | .posInf, .fin b => if 0 < b then .posInf else if b < 0 then .negInf else .nan
  | .negInf, .fin b => if 0 < b then .negInf else if b < 0 then .posInf else .nan
  | .fin a, .posInf => if 0 < a then .posInf else if a < 0 then .negInf else .nan
  | .fin a, .negInf => if 0 < a then .negInf else if a < 0 then .posInf else .nan
  | .fin a, .fin b => .fin (a * b)

/-- JS division (`x / 0` is a signed infinity for `x ≠ 0`, `0 / 0 = NaN`,
`∞ / ∞ = NaN`, finite `/ ∞ = 0`). -/
def jsDiv : JSNum → JSNum → JSNum
  | .nan, _ => .nan
  | _, .nan => .nan
  | .posInf, .posInf => .nan
  | .posInf, .negInf => .nan
  | .negInf, .posInf => .nan
  | .negInf, .negInf => .nan
  | .posInf, .fin b => if b < 0 then .negInf else .posInf
  | .negInf, .fin b => if b < 0 then .posInf else .negInf
  | .fin _, .posInf => .fin 0
  | .fin _, .negInf => .fin 0
  | .fin a, .fin b =>
      if b = 0 then (if 0 < a then .posInf else if a < 0 then .negInf else .nan)
      else .fin (a / b)

/-- JS comparison `a < b` (any comparison involving NaN is `false`). -/
def jsLt : JSNum → JSNum → Bool
  | .nan, _ => false
  | _, .nan => false
  | .negInf, .negInf => false
  | .negInf, _ => true
  | _, .negInf => false
  | .posInf, _ => false
  | .fin _, .posInf => true
  | .fin a, .fin b => decide (a < b)

/-- The selection rectangle state `{x, y, w, h}` (`cropRect` in
`MathsSolver.tsx`, line 17). -/
structure CropRect where
  x : JSNum
  y : JSNum
  w : JSNum
  h : JSNum
deriving DecidableEq

/-- A pointer position in client (viewport) coordinates, as returned by
`getClientCoordinates` from a mouse or touch event. -/
structure Pt where
  x : JSNum
  y : JSNum
deriving DecidableEq

/-- The container's `getBoundingClientRect()` result: `left`, `top`,
`width`, `height`. -/
structure BoundingRect where
  left : JSNum
  top : JSNum
  width : JSNum
  height : JSNum
deriving DecidableEq

/-- The cropper component state touched by the drag handlers:
`cropRect`, `isDragging`, `startPos`. -/
structure CropperState where
  cropRect : Option CropRect
  isDragging : Bool
  startPos : Pt
deriving DecidableEq

/-- The initial component state: `cropRect = null`, `isDragging = false`,
`startPos = {x: 0, y: 0}` (`useState` initialisers, `MathsSolver.tsx` 17–19). -/
def initState : CropperState :=
  { cropRect := none, isDragging := false, startPos := ⟨.fin 0, .fin 0⟩ }

/-- `handleMouseDown` (`MathsSolver.tsx` 79–92): converts the client point to
container-local coordinates (no clamping), records it as the anchor
(`startPos`), sets `isDragging`, and initialises the rect with zero size. -/
def handleMouseDown (rect : BoundingRect) (e : Pt) (_s : CropperState) : CropperState :=
  let x := jsSub e.x rect.left
  let y := jsSub e.y rect.top
  { cropRect := some ⟨x, y, .fin 0, .fin 0⟩
    isDragging := true
    startPos := ⟨x, y⟩ }

/-- `handleMouseMove` (`MathsSolver.tsx` 94–110): no-op unless dragging;
clamps the local current point to `[0, rect.width] × [0, rect.height]` via
`Math.max(0, Math.min(·, bound))`, then stores the axis-aligned bounding box
of `startPos` and the clamped point. -/
def handleMouseMove (rect : BoundingRect) (e : Pt) (s : CropperState) : CropperState :=
  if s.isDragging = false then s
  else
    let currentX := jsMax (.fin 0) (jsMin (jsSub e.x rect.left) rect.width)
    let currentY := jsMax (.fin 0) (jsMin (jsSub e.y rect.top) rect.height)
    let newX := jsMin s.startPos.x currentX
    let newY := jsMin s.startPos.y currentY
    let newW := jsAbs (jsSub currentX s.startPos.x)
    let newH := jsAbs (jsSub currentY s.startPos.y)
    { s with cropRect := some ⟨newX, newY, newW, newH⟩ }

/-- `handleMouseUp` (`MathsSolver.tsx` 112–114). -/
def handleMouseUp (s : CropperState) : CropperState :=
  { s with isDragging := false }

/-- A full drag gesture: `handleMouseDown` at `start`, then the listed move
events in order. -/
def runDrag (rect : BoundingRect) (start : Pt) (moves : List Pt)
    (s : CropperState) : CropperState :=
  moves.foldl (fun st e => handleMouseMove rect e st) (handleMouseDown rect start s)

/-- The spec's SelectionRect bounds invariant, relative to a `w × h`
container: all components finite, `0 ≤ x`, `0 ≤ y`, `x + width ≤ w`,
`y + height ≤ h`. -/
def rectInBounds (r : CropRect) (w h : ℚ) : Bool :=
  match r.x, r.y, r.w, r.h with
  | .fin x, .fin y, .fin rw, .fin rh =>
      decide (0 ≤ x ∧ 0 ≤ y ∧ x + rw ≤ w ∧ y + rh ≤ h)
  | _, _, _, _ => false

/-- The displayed image element's size attributes read by
`performCropAndSolve`: DOM `naturalWidth`/`naturalHeight` (native pixels) and
`clientWidth`/`clientHeight` (displayed CSS pixels). -/
structure ImgElement where
  naturalWidth : ℚ
  naturalHeight : ℚ
  clientWidth : ℚ
  clientHeight : ℚ
deriving DecidableEq

/-- The scale factor of `performCropAndSolve` (`MathsSolver.tsx` 119–122):
`naturalWidth / clientWidth`, as a JS division (so `Infinity` when
`clientWidth = 0` and `naturalWidth > 0`). -/
def computeScale (img : ImgElement) : JSNum :=
  jsDiv (.fin img.naturalWidth) (.fin img.clientWidth)

/-- The native-space rectangle used by `performCropAndSolve` both for the
canvas size (`cropRect.w * scale`, `cropRect.h * scale`) and for the
`drawImage` source rectangle (`cropRect.x * scale`, …): every component of
the displayed-space rect multiplied by the single width-derived scale. -/
def mapToNative (r : CropRect) (scale : JSNum) : CropRect :=
  ⟨jsMul r.x scale, jsMul r.y scale, jsMul r.w scale, jsMul r.h scale⟩

/-- The HTML/WebIDL conversion applied when a JS number is assigned to
`canvas.width` / `canvas.height` (`unsigned long`): NaN and the infinities
become `0`; a finite value is truncated toward zero and taken mod `2^32`. -/
def toUint32 (v : JSNum) : ℕ :=
  match v with
  | .fin q => (((if 0 ≤ q then ⌊q⌋ else ⌈q⌉) % (2 ^ 32 : ℤ))).toNat
  | _ => 0

/-- The encoding format passed to `toDataURL` by `performCropAndSolve`
(`MathsSolver.tsx` line 142). -/
def jpegMimeType : String := "image/jpeg"

/-- The data of a completed crop: the scale, the `drawImage` source
rectangle in native space, the canvas dimensions actually allocated (after
the DOM `unsigned long` coercion), and the `toDataURL` encoding arguments. -/
structure CropSubmission where
  scale : JSNum
  srcX : JSNum
  srcY : JSNum
  srcW : JSNum
  srcH : JSNum
  canvasWidth : ℕ
  canvasHeight : ℕ
  encodeFormat : String
  encodeQuality : ℚ
deriving DecidableEq

/-- Outcome of `performCropAndSolve`: either one of the early `return`s
(missing image ref / crop rect / temp image, or a null 2D context) — which
produce no drawing, no submission and no error — or a submission. -/
inductive CropOutcome where
  | aborted : CropOutcome
  | submitted : CropSubmission → CropOutcome
deriving DecidableEq

/-- The encode format of a submission, `none` for the silent aborts. -/
def CropOutcome.format : CropOutcome → Option String
  | .aborted => none
  | .submitted sub => some sub.encodeFormat

/-- `performCropAndSolve` (`MathsSolver.tsx` 116–152): guards on
`imageRef.current`, `cropRect` and `tempImage`; computes
`scale = naturalWidth / clientWidth`; sizes the canvas to
`cropRect.w * scale` × `cropRect.h * scale`; silently returns if the 2D
context is unavailable; otherwise draws the native-space source rectangle
and encodes the canvas with `toDataURL('image/jpeg', 0.8)`.
`ctxAvailable` models whether `canvas.getContext('2d')` returns non-null. -/
def performCropAndSolve (imageRef : Option ImgElement) (cropRect : Option CropRect)
    (tempImage : Option String) (ctxAvailable : Bool) : CropOutcome :=
  match imageRef, cropRect, tempImage with
  | some img, some r, some _ =>
      let scale := computeScale img
      let native := mapToNative r scale
      let canvasW := toUint32 native.w
      let canvasH := toUint32 native.h
      if ctxAvailable = false then .aborted
      else .submitted ⟨scale, native.x, native.y, native.w, native.h,
                       canvasW, canvasH, jpegMimeType, 4 / 5⟩
  | _, _, _ => .aborted

/-- A part of the model request: plain text, or inline image data with a
declared MIME type (`src/services/geminiService.ts` 377–386). -/
inductive Part where
  | text : String → Part
  | inlineData : (mimeType : String) → (data : String) → Part
deriving DecidableEq

/-- `true` exactly for inline-image parts. -/
def Part.isImage : Part → Bool
  | .inlineData _ _ => true
  | _ => false

/-- The request assembled by `solveMathProblem(problemText, classLevel,
imageBase64?)` (`geminiService.ts` 326–386): `classLevel` is interpolated
into the prompt; the parts list starts with the text part
(`problemText || "Solve the problem in this image."`) and, only when
`imageBase64` is present, appends an `inlineData` part whose `mimeType` is
the constant `'image/png'`. `classLevel` is `Option` because the caller can
leave the parameter `undefined`. -/
structure SolveRequest where
  classLevel : Option String
  parts : List Part
deriving DecidableEq

/-- The fallback text part used when `problemText` is empty
(`problemText || "Solve the problem in this image."`). -/
def defaultPromptText : String := "Solve the problem in this image."

/-- The constant MIME type declared on every attached image part
(`geminiService.ts` line 382). -/
def pngMimeType : String := "image/png"

/-- Request construction of `solveMathProblem`. -/
def solveMathProblemRequest (problemText : String) (classLevel : Option String)
    (imageBase64 : Option String) : SolveRequest :=
  let parts := [Part.text (if problemText = "" then defaultPromptText else problemText)]
  let parts := match imageBase64 with
    | some d => parts ++ [Part.inlineData pngMimeType d]
    | none => parts
  ⟨classLevel, parts⟩

/-- `handleSolveInternal` (`MathsSolver.tsx` 42–61): resolves the overrides
against component state, alerts and returns (`none`) when both the text and
the image are missing/empty, and otherwise calls
`solveMathProblem(textToUse || '', imageToUse || undefined)` — only two
positional arguments, so the second binds to the service's `classLevel`
parameter and the optional `imageBase64` parameter stays `undefined`. -/
def handleSolveInternal (problemText : String) (image : Option String)
    (textOverride : Option String) (imageOverride : Option (Option String)) :
    Option SolveRequest :=
  let textToUse := match textOverride with
    | some t => t
    | none => problemText
  let imageToUse := match imageOverride with
    | some i => i
    | none => image
  if textToUse = "" ∧ (imageToUse = none ∨ imageToUse = some "") then none
  else
    let arg2 := match imageToUse with
      | some s => if s = "" then none else some s
      | none => none
    some (solveMathProblemRequest textToUse arg2 none)

/-- The confirm-button condition of the `src/unnamed/part_000` variant
(line 327): `disabled={!cropRect || cropRect.w < 10}` — the height is never
consulted. -/
def solveSelectionDisabled (cropRect : Option CropRect) : Bool :=
  match cropRect with
  | none => true
  | some r => jsLt r.w (.fin 10)

/-- The confirm-button condition of the `src/components/MathsSolver.tsx`
variant (lines 264–269): the "Analyze Selection" button sets no `disabled`
prop at all, so it is never disabled. -/
def analyzeSelectionDisabled (_cropRect : Option CropRect) : Bool :=
  false

/-- Invariant carried through a drag: the anchor (`startPos`) is finite and
inside the `w × h` container, and a selection rectangle exists and satisfies
the bounds invariant. -/
def stateOK (w h : ℚ) (s : CropperState) : Prop :=
  (∃ px, s.startPos.x = JSNum.fin px ∧ 0 ≤ px ∧ px ≤ w) ∧
  (∃ py, s.startPos.y = JSNum.fin py ∧ 0 ≤ py ∧ py ≤ h) ∧
  (∃ r, s.cropRect = some r ∧ rectInBounds r w h = true)

/-! ## Evaluation lemmas for the JS-number operations -/

theorem jsSub_fin (a b : ℚ) : jsSub (.fin a) (.fin b) = .fin (a - b) := rfl

theorem jsMin_fin (a b : ℚ) : jsMin (.fin a) (.fin b) = .fin (min a b) := rfl

theorem jsMax_fin (a b : ℚ) : jsMax (.fin a) (.fin b) = .fin (max a b) := rfl

theorem jsAbs_fin (a : ℚ) : jsAbs (.fin a) = .fin |a| := rfl

theorem jsSub_nan_left (b : JSNum) : jsSub .nan b = .nan := by cases b <;> rfl

theorem jsMin_nan_left (b : JSNum) : jsMin .nan b = .nan := by cases b <;> rfl

theorem jsMin_nan_right (a : JSNum) : jsMin a .nan = .nan := by cases a <;> rfl

theorem jsMax_nan_right (a : JSNum) : jsMax a .nan = .nan := by cases a <;> rfl

theorem toUint32_mul_posInf (x : JSNum) : toUint32 (jsMul x .posInf) = 0 := by
  cases x with
  | nan => rfl
  | posInf => rfl
  | negInf => rfl
  | fin a =>
      simp only [jsMul]
      split_ifs <;> rfl

/-! ## The drag invariant -/

theorem move_preserves (lq tq w h : ℚ) (hw : 0 ≤ w) (hh : 0 ≤ h) (e : Pt)
    (hex : e.x.isFinite = true) (hey : e.y.isFinite = true)
    (s : CropperState) (hs : stateOK w h s) :
    stateOK w h (handleMouseMove ⟨.fin lq, .fin tq, .fin w, .fin h⟩ e s) := by
  obtain ⟨⟨px, hpx, hpx0, hpxw⟩, ⟨py, hpy, hpy0, hpyh⟩, hrect⟩ := hs
  by_cases hd : s.isDragging = false
  · rw [handleMouseMove, if_pos hd]
    exact ⟨⟨px, hpx, hpx0, hpxw⟩, ⟨py, hpy, hpy0, hpyh⟩, hrect⟩
  · obtain ⟨ex, hex'⟩ : ∃ q, e.x = JSNum.fin q := by
      cases hx : e.x <;> simp [JSNum.isFinite, hx] at hex ⊢
    obtain ⟨ey, hey'⟩ : ∃ q, e.y = JSNum.fin q := by
      cases hy : e.y <;> simp [JSNum.isFinite, hy] at hey ⊢
    rw [handleMouseMove, if_neg hd]
    refine ⟨⟨px, hpx, hpx0, hpxw⟩, ⟨py, hpy, hpy0, hpyh⟩, ?_⟩
    refine ⟨_, rfl, ?_⟩
    simp only [hex', hey', hpx, hpy, jsSub_fin, jsMin_fin, jsMax_fin, jsAbs_fin,
      rectInBounds, decide_eq_true_eq]
    set cx := max 0 (min (ex - lq) w) with hcx
    set cy := max 0 (min (ey - tq) h) with hcy
    have hcx0 : 0 ≤ cx := le_max_left _ _
    have hcxw : cx ≤ w := max_le hw (min_le_right _ _)
    have hcy0 : 0 ≤ cy := le_max_left _ _
    have hcyh : cy ≤ h := max_le hh (min_le_right _ _)
    have hax : |cx - px| = max px cx - min px cx :=
      (max_sub_min_eq_abs px cx).symm
    have hay : |cy - py| = max py cy - min py cy :=
      (max_sub_min_eq_abs py cy).symm
    refine ⟨le_min hpx0 hcx0, le_min hpy0 hcy0, ?_, ?_⟩
    · rw [hax]
      have := max_le hpxw hcxw
      have := min_le_left px cx
      linarith
    · rw [hay]
      have := max_le hpyh hcyh
      have := min_le_left py cy
      linarith

theorem drag_fold (lq tq w h : ℚ) (hw : 0 ≤ w) (hh : 0 ≤ h) :
    ∀ (moves : List Pt) (s : CropperState),
      (∀ e ∈ moves, e.x.isFinite = true ∧ e.y.isFinite = true) →
      stateOK w h s →
      stateOK w h (moves.foldl
        (fun st e => handleMouseMove ⟨.fin lq, .fin tq, .fin w, .fin h⟩ e st) s)
  | [], _, _, hs => hs
  | e :: moves, s, hm, hs => by
      simp only [List.foldl_cons]
      exact drag_fold lq tq w h hw hh moves _
        (fun e' he' => hm e' (List.mem_cons_of_mem _ he'))
        (move_preserves lq tq w h hw hh e (hm e (List.mem_cons_self _ _)).1
          (hm e (List.mem_cons_self _ _)).2 s hs)

/-! ## The claims -/

/-- Claim C1: for every drag gesture — a mouse-down at a point whose
container-local coordinates lie in the container, followed by any finite
list of move events with arbitrary (possibly far out-of-bounds) finite
pointer coordinates — the resulting `cropRect` exists and satisfies
`0 ≤ x`, `0 ≤ y`, `x + width ≤ w`, `y + height ≤ h` for the container size
`w × h`, because `handleMouseMove` clamps every move point to
`[0, w] × [0, h]` before computing the rectangle. -/
theorem c1_clamping_invariant (lq tq w h sx sy : ℚ)
    (hw : 0 ≤ w) (hh : 0 ≤ h)
    (hax0 : 0 ≤ sx - lq) (haxw : sx - lq ≤ w)
    (hay0 : 0 ≤ sy - tq) (hayh : sy - tq ≤ h)
    (moves : List Pt)
    (hm : ∀ e ∈ moves, e.x.isFinite = true ∧ e.y.isFinite = true)
    (s₀ : CropperState) :
    ∃ r, (runDrag ⟨.fin lq, .fin tq, .fin w, .fin h⟩ ⟨.fin sx, .fin sy⟩ moves s₀).cropRect
          = some r ∧
      rectInBounds r w h = true := by
  have h0 : stateOK w h
      (handleMouseDown ⟨.fin lq, .fin tq, .fin w, .fin h⟩ ⟨.fin sx, .fin sy⟩ s₀) := by
    refine ⟨⟨sx - lq, rfl, hax0, haxw⟩, ⟨sy - tq, rfl, hay0, hayh⟩,
      ⟨⟨.fin (sx - lq), .fin (sy - tq), .fin 0, .fin 0⟩, rfl, ?_⟩⟩
    simp only [rectInBounds, decide_eq_true_eq]
    exact ⟨hax0, hay0, by linarith, by linarith⟩
  exact (drag_fold lq tq w h hw hh moves _ hm h0).2.2

/-- Witness for C1: container `400 × 300` at offset `(0,0)`, anchor
`(10, 20)`, two wildly out-of-bounds moves; the final rect exists and is in
bounds. -/
theorem c1_clamping_invariant_witness :
    ∃ r, (runDrag ⟨.fin 0, .fin 0, .fin 400, .fin 300⟩ ⟨.fin 10, .fin 20⟩
          [⟨.fin (-50), .fin 500⟩, ⟨.fin 1000, .fin (-3)⟩] initState).cropRect = some r ∧
      rectInBounds r 400 300 = true := by
  refine c1_clamping_invariant 0 0 400 300 10 20 (by norm_num) (by norm_num)
    (by norm_num) (by norm_num) (by norm_num) (by norm_num) _ ?_ initState
  intro e he
  simp only [List.mem_cons, List.not_mem_nil, or_false] at he
  rcases he with rfl | rfl <;> exact ⟨rfl, rfl⟩

/-- Claim C2: for any in-progress drag whose anchor is `(ax, ay)`, a move
event at client point `(mx, my)` commits exactly the rectangle
`{x := min ax px, y := min ay py, width := |px - ax|, height := |py - ay|}`
where `(px, py)` is the move point clamped to the container:
`px = max 0 (min (mx - left) width)` and `py = max 0 (min (my - top) height)`. -/
theorem c2_bounding_box (lq tq w h mx my ax ay : ℚ) (s : CropperState)
    (hd : s.isDragging = true)
    (hx : s.startPos.x = .fin ax) (hy : s.startPos.y = .fin ay) :
    (handleMouseMove ⟨.fin lq, .fin tq, .fin w, .fin h⟩ ⟨.fin mx, .fin my⟩ s).cropRect =
      some ⟨.fin (min ax (max 0 (min (mx - lq) w))),
            .fin (min ay (max 0 (min (my - tq) h))),
            .fin |max 0 (min (mx - lq) w) - ax|,
            .fin |max 0 (min (my - tq) h) - ay|⟩ := by
  rw [handleMouseMove, if_neg (by simp [hd])]
  simp [hx, hy, jsSub_fin, jsMin_fin, jsMax_fin, jsAbs_fin]

/-- Witness for C2, Scenario B of the spec: anchor `(390, 10)` dragged to
client point `(450, 50)` over a `400 × 300` container at offset `(0, 0)`;
the point is clamped to `(400, 50)` and the committed rect is
`{390, 10, 10, 40}`, not `{390, 10, 60, 40}`. -/
theorem c2_bounding_box_witness :
    (handleMouseMove ⟨.fin 0, .fin 0, .fin 400, .fin 300⟩ ⟨.fin 450, .fin 50⟩
      (handleMouseDown ⟨.fin 0, .fin 0, .fin 400, .fin 300⟩ ⟨.fin 390, .fin 10⟩
        initState)).cropRect
      = some ⟨.fin 390, .fin 10, .fin 10, .fin 40⟩ := by
  rw [c2_bounding_box 0 0 400 300 450 50 390 10 _ rfl
    (by norm_num [handleMouseDown, jsSub_fin])
    (by norm_num [handleMouseDown, jsSub_fin])]
  norm_num [min_def, max_def, abs_eq_max_neg]

/-- Claim C3, Scenario A of the spec: displayed image `400 × 300` CSS px,
native `1200 × 900` px (scale 3); a drag from anchor `(50, 50)` to
`(150, 120)` yields the selection rect `{50, 50, 100, 70}`; confirming the
crop maps it to the native-space source rect `{150, 150, 300, 210}` and the
canvas handed to the encoder measures `300 × 210`. -/
theorem c3_scenario_a :
    (handleMouseMove ⟨.fin 0, .fin 0, .fin 400, .fin 300⟩ ⟨.fin 150, .fin 120⟩
      (handleMouseDown ⟨.fin 0, .fin 0, .fin 400, .fin 300⟩ ⟨.fin 50, .fin 50⟩
        initState)).cropRect
      = some ⟨.fin 50, .fin 50, .fin 100, .fin 70⟩ ∧
    performCropAndSolve (some ⟨1200, 900, 400, 300⟩)
      (some ⟨.fin 50, .fin 50, .fin 100, .fin 70⟩) (some defaultPromptText) true
      = .submitted ⟨.fin 3, .fin 150, .fin 150, .fin 300, .fin 210,
                    300, 210, jpegMimeType, 4 / 5⟩ := by
  constructor
  · norm_num [handleMouseMove, handleMouseDown, initState, jsSub, jsMin, jsMax, jsAbs,
      min_def, max_def, abs_eq_max_neg]
  · norm_num [performCropAndSolve, computeScale, mapToNative, toUint32, jsDiv, jsMul]
    omega

/-- Counterexample to claim C4: a `SourceImage` whose displayed size does
not preserve the native aspect ratio (native `100 × 100`, displayed
`50 × 10`). Mapping the full-image default rect with the width-derived
scale yields `{0, 0, 100, 20}`, not `{0, 0, 100, 100}` — the height is off
by 80, far beyond rounding. -/
theorem c4_counterexample :
    mapToNative ⟨.fin 0, .fin 0, .fin 50, .fin 10⟩ (computeScale ⟨100, 100, 50, 10⟩)
      = ⟨.fin 0, .fin 0, .fin 100, .fin 20⟩ ∧
    (⟨.fin 0, .fin 0, .fin 100, .fin 20⟩ : CropRect)
      ≠ ⟨.fin 0, .fin 0, .fin 100, .fin 100⟩ := by
  constructor
  · norm_num [mapToNative, computeScale, jsDiv, jsMul]
  · intro hcontra
    simp only [CropRect.mk.injEq, JSNum.fin.injEq] at hcontra
    norm_num at hcontra

/-- Claim C4 as amended: for every `SourceImage` with `displayedWidth ≠ 0`
whose displayed size preserves the native aspect ratio
(`displayedHeight * nativeWidth = nativeHeight * displayedWidth`), mapping
the full-image default rect `{0, 0, displayedWidth, displayedHeight}` with
the width-derived scale yields exactly `{0, 0, nativeWidth, nativeHeight}`.
Without the aspect hypothesis the width component is still exact but the
height can deviate arbitrarily. -/
theorem c4_aspect_preserving_scale (img : ImgElement)
    (hcw : img.clientWidth ≠ 0)
    (haspect : img.clientHeight * img.naturalWidth
                 = img.naturalHeight * img.clientWidth) :
    mapToNative ⟨.fin 0, .fin 0, .fin img.clientWidth, .fin img.clientHeight⟩
        (computeScale img)
      = ⟨.fin 0, .fin 0, .fin img.naturalWidth, .fin img.naturalHeight⟩ := by
  simp only [mapToNative, computeScale, jsDiv, if_neg hcw, jsMul, CropRect.mk.injEq,
    JSNum.fin.injEq]
  refine ⟨by ring, by ring, ?_, ?_⟩
  · field_simp
  · field_simp
    linarith [haspect]

/-- Witness for C4 (amended): the Scenario A image, native `1200 × 900`
displayed at `400 × 300`, maps its full rect exactly to
`{0, 0, 1200, 900}`. -/
theorem c4_aspect_preserving_scale_witness :
    mapToNative ⟨.fin 0, .fin 0, .fin 400, .fin 300⟩
        (computeScale ⟨1200, 900, 400, 300⟩)
      = ⟨.fin 0, .fin 0, .fin 1200, .fin 900⟩ :=
  c4_aspect_preserving_scale ⟨1200, 900, 400, 300⟩ (by norm_num) (by norm_num)

/-- Counterexample to claim C5: with the 2D context unavailable,
`performCropAndSolve` yields the same silent `aborted` outcome as the
missing-prerequisite early returns — no `RenderContextUnavailableError` (or
any other failure value) is surfaced, so the crop is silently dropped. -/
theorem c5_counterexample :
    performCropAndSolve (some ⟨1200, 900, 400, 300⟩)
        (some ⟨.fin 50, .fin 50, .fin 100, .fin 70⟩) (some defaultPromptText) false
      = .aborted ∧
    performCropAndSolve none none none true = .aborted :=
  ⟨rfl, rfl⟩

/-- Claim C5 as amended: if the 2D drawing context cannot be acquired,
`performCropAndSolve` returns early — nothing is drawn, encoded or
submitted, and no error of any kind is reported (`format` is `none`, as for
every silent abort); the failure is swallowed, not surfaced. -/
theorem c5_silent_context_failure (img : ImgElement) (r : CropRect) (tmp : String) :
    performCropAndSolve (some img) (some r) (some tmp) false = .aborted ∧
    (performCropAndSolve (some img) (some r) (some tmp) false).format = none :=
  ⟨rfl, rfl⟩

/-- Counterexample to claim C6: with `displayedWidth = 0` (image not laid
out) the crop operation does not fail at all — it proceeds to a submission
whose scale is `Infinity` and whose canvas dimensions coerce to `0 × 0`. -/
theorem c6_counterexample :
    performCropAndSolve (some ⟨1200, 900, 0, 0⟩)
        (some ⟨.fin 5, .fin 5, .fin 10, .fin 10⟩) (some defaultPromptText) true
      = .submitted ⟨.posInf, .posInf, .posInf, .posInf, .posInf,
                    0, 0, jpegMimeType, 4 / 5⟩ := by
  norm_num [performCropAndSolve, computeScale, mapToNative, toUint32, jsDiv, jsMul]

/-- Claim C6 as amended: no `displayedWidth > 0` precondition is checked
anywhere; when `displayedWidth = 0` and `nativeWidth > 0` the computed
scale is `Infinity` (a non-finite, unusable value), yet the operation does
not fail — it proceeds to a submission whose canvas width and height both
coerce to `0`. -/
theorem c6_no_failure_on_zero_width (img : ImgElement) (r : CropRect) (tmp : String)
    (h0 : img.clientWidth = 0) (h1 : 0 < img.naturalWidth) :
    computeScale img = .posInf ∧
    ∃ sub, performCropAndSolve (some img) (some r) (some tmp) true = .submitted sub ∧
      sub.canvasWidth = 0 ∧ sub.canvasHeight = 0 := by
  have hs : computeScale img = .posInf := by
    simp [computeScale, jsDiv, h0, h1]
  refine ⟨hs, ⟨.posInf, jsMul r.x .posInf, jsMul r.y .posInf, jsMul r.w .posInf,
    jsMul r.h .posInf, toUint32 (jsMul r.w .posInf), toUint32 (jsMul r.h .posInf),
    jpegMimeType, 4 / 5⟩, ?_, ?_, ?_⟩
  · simp [performCropAndSolve, mapToNative, hs]
  · exact toUint32_mul_posInf r.w
  · exact toUint32_mul_posInf r.h

/-- Witness for C6 (amended): the concrete `1200 × 900` image displayed at
width `0`. -/
theorem c6_no_failure_on_zero_width_witness :
    computeScale ⟨1200, 900, 0, 0⟩ = .posInf ∧
    ∃ sub, performCropAndSolve (some ⟨1200, 900, 0, 0⟩)
        (some ⟨.fin 5, .fin 5, .fin 10, .fin 10⟩) (some defaultPromptText) true
        = .submitted sub ∧
      sub.canvasWidth = 0 ∧ sub.canvasHeight = 0 :=
  c6_no_failure_on_zero_width ⟨1200, 900, 0, 0⟩ ⟨.fin 5, .fin 5, .fin 10, .fin 10⟩
    defaultPromptText (by norm_num) (by norm_num)

/-- Claim C7, evaluated at the failing input: after a confirmed crop the
component calls `solveMathProblem(textToUse, imageToUse)` with only two
positional arguments, so the cropped base64 payload binds to the service's
`classLevel` parameter, the optional `imageBase64` parameter stays
undefined, and the resulting request contains no inline-image part at all —
contradicting the claimed contract `solve(text, imageBytes?)` under which
the payload would be attached as inline image data. Here the payload is the
string `"abc"` with empty problem text. -/
theorem c7_crop_payload_misbound :
    handleSolveInternal ("") none none (some (some ("abc")))
      = some ⟨some ("abc"), [Part.text defaultPromptText]⟩ ∧
    List.filter (fun p => p.isImage) [Part.text defaultPromptText] = [] := by
  constructor
  · simp [handleSolveInternal, solveMathProblemRequest]
  · rfl

/-- Counterexample to claim C8: the `part_000` confirm guard
(`!cropRect || cropRect.w < 10`) leaves a `{10, 10, 12, 5}` selection
enabled even though its height is below 10, and the current
`MathsSolver.tsx` confirm button is never disabled at all, so even the
`{10, 10, 5, 5}` selection of Scenario C does not disable it there. -/
theorem c8_counterexample :
    solveSelectionDisabled (some ⟨.fin 10, .fin 10, .fin 12, .fin 5⟩) = false ∧
    analyzeSelectionDisabled (some ⟨.fin 10, .fin 10, .fin 5, .fin 5⟩) = false := by
  constructor
  · norm_num [solveSelectionDisabled, jsLt]
  · rfl

/-- Claim C8 as amended: in the `part_000` variant the confirm action is
disabled exactly when no rectangle is committed or the committed
rectangle's width is `< 10` — the height is never consulted — so Scenario
C's `{10, 10, 5, 5}` disables and `{10, 10, 12, 12}` enables it; in the
`MathsSolver.tsx` variant the confirm action is never disabled. -/
theorem c8_width_only_guard (x y hgt : JSNum) (wq : ℚ) :
    solveSelectionDisabled none = true ∧
    solveSelectionDisabled (some ⟨x, y, .fin wq, hgt⟩) = decide (wq < 10) ∧
    solveSelectionDisabled (some ⟨.fin 10, .fin 10, .fin 5, .fin 5⟩) = true ∧
    solveSelectionDisabled (some ⟨.fin 10, .fin 10, .fin 12, .fin 12⟩) = false ∧
    analyzeSelectionDisabled (some ⟨x, y, .fin wq, hgt⟩) = false := by
  refine ⟨rfl, rfl, ?_, ?_, rfl⟩
  · norm_num [solveSelectionDisabled, jsLt]
  · norm_num [solveSelectionDisabled, jsLt]

/-- Counterexample to claim C9: a move event with a NaN x-coordinate over a
`400 × 300` container, during a drag anchored at `(10, 10)`, produces the
selection rect `{NaN, 10, NaN, 40}` — the clamping chain
`Math.max(0, Math.min(NaN, 400))` evaluates to NaN, which flows into the
rectangle instead of being rejected. -/
theorem c9_counterexample :
    (handleMouseMove ⟨.fin 0, .fin 0, .fin 400, .fin 300⟩ ⟨.nan, .fin 50⟩
      (handleMouseDown ⟨.fin 0, .fin 0, .fin 400, .fin 300⟩ ⟨.fin 10, .fin 10⟩
        initState)).cropRect
      = some ⟨.nan, .fin 10, .nan, .fin 40⟩ := by
  norm_num [handleMouseMove, handleMouseDown, initState, jsSub, jsMin, jsMax, jsAbs,
    min_def, max_def, abs_eq_max_neg]

/-- Claim C9 as amended: the clamping step does not reject malformed
coordinates — `Math.min`/`Math.max` propagate NaN, so any move event with a
NaN x-coordinate during a drag commits a selection rect whose `x` and
`width` are NaN (symmetrically for `y`). -/
theorem c9_nan_propagates (rect : BoundingRect) (my : JSNum) (s : CropperState)
    (hd : s.isDragging = true) :
    ∃ r, (handleMouseMove rect ⟨.nan, my⟩ s).cropRect = some r ∧
      r.x = .nan ∧ r.w = .nan := by
  rw [handleMouseMove, if_neg (by simp [hd])]
  refine ⟨_, rfl, ?_, ?_⟩
  · simp [jsSub_nan_left, jsMin_nan_left, jsMax_nan_right, jsMin_nan_right]
  · simp [jsSub_nan_left, jsMin_nan_left, jsMax_nan_right, jsAbs]

/-- Witness for C9 (amended): the concrete NaN move event of the
counterexample scenario. -/
theorem c9_nan_propagates_witness :
    ∃ r, (handleMouseMove ⟨.fin 0, .fin 0, .fin 400, .fin 300⟩ ⟨.nan, .fin 50⟩
      (handleMouseDown ⟨.fin 0, .fin 0, .fin 400, .fin 300⟩ ⟨.fin 10, .fin 10⟩
        initState)).cropRect = some r ∧
      r.x = .nan ∧ r.w = .nan :=
  c9_nan_propagates ⟨.fin 0, .fin 0, .fin 400, .fin 300⟩ (.fin 50) _ rfl

/-- Claim C10: whenever an image payload is attached to a solve request,
the attached part declares the constant MIME type `'image/png'` —
regardless of the problem text, the class level and the payload bytes —
even though a confirmed crop encodes its canvas with
`toDataURL('image/jpeg', 0.8)`; the declared type never depends on the
actual encoding. -/
theorem c10_png_mime_constant (pt : String) (cl : Option String) (d : String)
    (img : ImgElement) (r : CropRect) (tmp : String) :
    (solveMathProblemRequest pt cl (some d)).parts.filter (fun p => p.isImage)
      = [Part.inlineData pngMimeType d] ∧
    pngMimeType = "image/png" ∧
    (performCropAndSolve (some img) (some r) (some tmp) true).format
      = some jpegMimeType ∧
    jpegMimeType = "image/jpeg" := by
  refine ⟨?_, rfl, rfl, rfl⟩
  simp [solveMathProblemRequest, Part.isImage]

end Edugen
